import Mathlib

/-!
Shallow embedding of the core of the `siostam` repository (Rust), for checking
its natural-language specification.

Embedded modules:
* `src/subsystem_mapping/references.rs` — `ReferenceByIndex` and `find_index_in`
* `src/subsystem_mapping/mod.rs` — raw source records, `extract_system`,
  `extract_subsystems`, `merge_all_files`, `reconstruct_links`,
  `source_to_graph`, `output_subsystems_dependencies`, JSON export shape
* `src/core.rs` — `Updatable` (versioned cache), `upgrade_graph`,
  `check_for_graph_update` (single-flight guard)
* `src/server/actors.rs` — `UpdateMasterActor` tick / fan-out

Conventions of the embedding:
* Rust `HashMap<String, usize>` is modelled as a function `String → Option Nat`;
  `insert` overwrites the binding for its key, exactly as `HashMap::insert`.
* `Instant::now()` is modelled by an explicit `now : Nat` argument threaded to
  the operations that read the clock.
* File I/O (`read_file`) is fallible and external; builder functions take the
  list of per-file read results (`Except CustomError SubsystemFileSource`),
  which is what `merge_all_files` consumes after its `collect()` step.
* In-place mutation (`&mut self`) becomes explicit state passing: each
  operation returns the updated value.
-/

/-- Embedding of `src/error.rs`: `CustomError` carries a message string. -/
structure CustomError where
  message : String
deriving DecidableEq, Repr

/-- Embedding of `src/subsystem_mapping/references.rs`: a deferred link storing the textual
id it targets and, once resolved, the positional index into the owning
collection.  The Rust struct carries a `PhantomData<T>` marker which holds no
runtime data (it only tags the target type at compile time), so it is dropped
here. -/
structure ReferenceByIndex where
  id : String
  index : Option Nat
deriving DecidableEq, Repr

/-- Embedding of `ReferenceByIndex::new`: the reference starts unresolved. -/
def ReferenceByIndex.new (id : String) : ReferenceByIndex :=
  { id := id, index := none }

/-- Model of `HashMap<String, usize>` used by `reconstruct_links`. -/
def IndexMap : Type := String → Option Nat

/-- Embedding of `HashMap::insert`: overwrites the previous binding of the key. -/
def IndexMap.insert (m : IndexMap) (k : String) (v : Nat) : IndexMap :=
  fun x => if x = k then some v else m x

/-- The empty map (`HashMap::with_capacity`). -/
def IndexMap.empty : IndexMap := fun _ => none

/-- Embedding of `ReferenceByIndex::find_index_in`:
`self.index = indexes.get(&self.id).map(|i| *i);` — only the `index` field is
written. -/
def ReferenceByIndex.find_index_in (r : ReferenceByIndex) (indexes : IndexMap) :
    ReferenceByIndex :=
  { r with index := indexes r.id }

-- -- Models in source files (`src/subsystem_mapping/mod.rs`) --

/-- Raw `[[subsystem.dependencies]]` record. -/
structure SubsystemDependencySource where
  id : Option String
  why : Option String
deriving DecidableEq, Repr

/-- Raw how-to record. -/
structure HowToSource where
  url : Option String
  text : Option String
deriving DecidableEq, Repr

/-- Raw `[system]` record. -/
structure SystemSource where
  id : Option String
  name : Option String
  description : Option String
  howto : Option (List HowToSource)
  how_to : Option (List HowToSource)
deriving DecidableEq, Repr

/-- Raw `[[subsystem]]` record. -/
structure SubsystemSource where
  id : Option String
  name : Option String
  description : Option String
  dependency : Option (List SubsystemDependencySource)
  dependencies : Option (List SubsystemDependencySource)
  howto : Option (List HowToSource)
  how_to : Option (List HowToSource)
deriving DecidableEq, Repr

/-- Raw content of one descriptor file.  `repo_name` and `path` are `Option`
in the Rust struct because they are filled in by `read_file` after parsing
(the code then unwraps them). -/
structure SubsystemFileSource where
  stored_in_system : Option String
  system : Option SystemSource
  subsystem : Option (List SubsystemSource)
  subsystems : Option (List SubsystemSource)
  repo_name : Option String
  path : Option String
deriving DecidableEq, Repr

-- -- Post-processed models --

/-- Processed how-to entry. -/
structure HowTo where
  url : String
  text : String
deriving DecidableEq, Repr

/-- Processed `System` entity. -/
structure System where
  id : String
  name : String
  repo_name : String
  path : String
  description : Option String
  parent_system : Option ReferenceByIndex
  how_to : List HowTo
deriving DecidableEq, Repr

/-- Processed dependency of a `Subsystem`. -/
structure SubsystemDependency where
  subsystem : ReferenceByIndex
  why : Option String
deriving DecidableEq, Repr

/-- Processed `Subsystem` entity. -/
structure Subsystem where
  id : String
  name : String
  repo_name : String
  path : String
  description : Option String
  parent_system : Option ReferenceByIndex
  dependencies : List SubsystemDependency
  how_to : List HowTo
deriving DecidableEq, Repr

/-- The full graph: two growable, order-preserving collections. -/
structure Graph where
  systems : List System
  subsystems : List Subsystem
deriving DecidableEq, Repr

-- -- Transformation --

/-- Embedding of `iterate_over_option_vecs`: iterate over two `Option<Vec<T>>` in sequence
as if they were one vec. -/
def iterate_over_option_vecs {T : Type} (vec_a vec_b : Option (List T)) : List T :=
  vec_a.getD [] ++ vec_b.getD []

/-- Rust `Option::or` (eager version used as `a.or(b)`). -/
def optionOr {T : Type} (a b : Option T) : Option T :=
  match a with
  | some x => some x
  | none => b

/-- The how-to processing loop shared by `extract_system` and
`extract_subsystems`: keep entries that have a `url`; `text` falls back to the
`url`. -/
def extractHowTos (how_to howto : Option (List HowToSource)) : List HowTo :=
  (iterate_over_option_vecs how_to howto).filterMap fun h =>
    match h.url with
    | some u => some { url := u, text := (optionOr h.text (some u)).get! }
    | none => none

/-- Embedding of `SubsystemFileSource::extract_system`: at most one `System` per file;
`None` when the file has no `[system]` block or when the block has neither
`id` nor `name`; otherwise `id` and `name` default to each other. -/
def SubsystemFileSource.extract_system (self : SubsystemFileSource) : Option System :=
  match self.system with
  | none => none
  | some system =>
    if system.id = none ∧ system.name = none then
      none
    else
      some {
        id := (optionOr system.id system.name).get!
        name := (optionOr system.name system.id).get!
        repo_name := self.repo_name.get!
        path := self.path.get!
        description := system.description
        parent_system := self.stored_in_system.map fun s => ReferenceByIndex.new s
        how_to := extractHowTos system.how_to system.howto
      }

/-- The loop body of `extract_subsystems` for one raw subsystem record:
`none` when the record has neither `id` nor `name` (the `continue` branch),
otherwise the processed subsystem with `id`/`name` defaulting to each other
and `parent_system` taken from the caller's choice. -/
def extractOneSubsystem (self : SubsystemFileSource) (parent_system : Option String)
    (subsystem : SubsystemSource) : Option Subsystem :=
  if subsystem.id = none ∧ subsystem.name = none then
    none
  else
    some {
      id := (optionOr subsystem.id subsystem.name).get!
      name := (optionOr subsystem.name subsystem.id).get!
      repo_name := self.repo_name.get!
      path := self.path.get!
      description := subsystem.description
      parent_system := parent_system.map fun p => ReferenceByIndex.new p
      dependencies :=
        (iterate_over_option_vecs subsystem.dependencies subsystem.dependency).filterMap
          fun dependency =>
            match dependency.id with
            | some i => some { subsystem := ReferenceByIndex.new i, why := dependency.why }
            | none => none
      how_to := extractHowTos subsystem.how_to subsystem.howto
    }

/-- Embedding of `SubsystemFileSource::extract_subsystems`: all well-formed subsystems of
the file; a record with neither `id` nor `name` is skipped. -/
def SubsystemFileSource.extract_subsystems (self : SubsystemFileSource)
    (parent_system : Option String) : List Subsystem :=
  (iterate_over_option_vecs self.subsystems self.subsystem).filterMap
    (extractOneSubsystem self parent_system)

/-- Embedding of `files.iter().map(|f| read_file(f)).collect::<Result<Vec<_>, _>>()`:
the first error aborts, otherwise all values are gathered in order. -/
def collectResults {E A : Type} : List (Except E A) → Except E (List A)
  | [] => Except.ok []
  | Except.error e :: _ => Except.error e
  | Except.ok a :: rest =>
    match collectResults rest with
    | Except.error e => Except.error e
    | Except.ok as_ => Except.ok (a :: as_)

/-- The per-file step of the loop in `merge_all_files`: extract the file's
system, choose the local subsystem parent (the system's id if there is one,
else `stored_in_system`, else none), extract the subsystems, and append both
to the accumulated collections (append-only, to preserve indices). -/
def mergeFileStep (acc : List System × List Subsystem) (file : SubsystemFileSource) :
    List System × List Subsystem :=
  let system := file.extract_system
  let system_id := system.map fun s => s.id
  let subsystem_parent := optionOr system_id file.stored_in_system
  let local_subsystems := file.extract_subsystems subsystem_parent
  (acc.1 ++ system.toList, acc.2 ++ local_subsystems)

/-- Embedding of `merge_all_files`: read results are collected (one failure aborts the
whole build), then each file's systems/subsystems are appended in order. -/
def merge_all_files (files : List (Except CustomError SubsystemFileSource)) :
    Except CustomError Graph :=
  match collectResults files with
  | Except.error e => Except.error e
  | Except.ok files =>
    let pair := files.foldl mergeFileStep ([], [])
    Except.ok { systems := pair.1, subsystems := pair.2 }

/-- The index-construction loop of `reconstruct_links`:
`for (index, item) in items.iter().enumerate() { map.insert(id, index) }`,
with `HashMap::insert` overwrite semantics.  The counter argument carries the
running enumeration index. -/
def buildIndexMap : List String → Nat → IndexMap → IndexMap
  | [], _, m => m
  | id :: rest, i, m => buildIndexMap rest (i + 1) (m.insert id i)

/-- The id-to-position map for one namespace, starting from the empty map. -/
def indexById (ids : List String) : IndexMap :=
  buildIndexMap ids 0 IndexMap.empty

/-- Resolution of one `System`s references against the system namespace
(`parent.find_index_in(&systems)` in the first loop of `reconstruct_links`). -/
def resolveSystemRefs (systems : IndexMap) (s : System) : System :=
  { s with parent_system := s.parent_system.map fun p => p.find_index_in systems }

/-- Resolution of one `Subsystem`s references: its parent link against the
system namespace, each of its dependencies against the subsystem namespace
(second and third loops of `reconstruct_links`). -/
def resolveSubsystemRefs (systems subsystems : IndexMap) (s : Subsystem) : Subsystem :=
  { s with
    parent_system := s.parent_system.map fun p => p.find_index_in systems
    dependencies := s.dependencies.map fun dep =>
      { dep with subsystem := dep.subsystem.find_index_in subsystems } }

/-- Embedding of `reconstruct_links`: build one id map per namespace (systems and
subsystems), then rewrite every stored reference's resolved index —
parent links against the system namespace, dependency links against the
subsystem namespace.  Nothing else about the entities is touched. -/
def reconstruct_links (unlinked_graph : Graph) : Graph :=
  let systems : IndexMap := indexById (unlinked_graph.systems.map fun s => s.id)
  let subsystems : IndexMap := indexById (unlinked_graph.subsystems.map fun s => s.id)
  { systems := unlinked_graph.systems.map (resolveSystemRefs systems)
    subsystems := unlinked_graph.subsystems.map (resolveSubsystemRefs systems subsystems) }

/-- Embedding of `source_to_graph`: merge all files, then resolve the links. -/
def source_to_graph (files : List (Except CustomError SubsystemFileSource)) :
    Except CustomError Graph :=
  match merge_all_files files with
  | Except.error e => Except.error e
  | Except.ok graph => Except.ok (reconstruct_links graph)

-- -- Structured (JSON) export shape --

/-- Minimal JSON value tree, to state what serde emits for the fields the
spec talks about. -/
inductive Json where
  | null : Json
  | str : String → Json
  | num : Nat → Json
  | arr : List Json → Json
  | obj : List (String × Json) → Json

/-- serde serialization of `ReferenceByIndex` (the `phantom` field is
`#[serde(skip_serializing)]`): `id` as a string, `index` as a number or
`null` when unresolved. -/
def ReferenceByIndex.toJson (r : ReferenceByIndex) : Json :=
  Json.obj [("id", Json.str r.id), ("index", match r.index with
    | none => Json.null
    | some i => Json.num i)]

-- -- DOT edge traversal (`output_subsystems_dependencies`) --

/-- The body of the inner loop of `output_subsystems_dependencies`: an edge
`(a.id, b.id)` is produced only when the dependency's index is resolved;
`b` is the subsystem at the resolved index. -/
def dependencyEdge (g : Graph) (a : Subsystem) (dep : SubsystemDependency) :
    Option (String × String) :=
  (dep.subsystem.index.bind fun s => g.subsystems[s]?).map fun b => (a.id, b.id)

/-- Embedding of `Graph::output_subsystems_dependencies`: walk every subsystem's
dependencies and emit an edge for each resolved one (unresolved dependencies
produce nothing). -/
def output_subsystems_dependencies (g : Graph) : List (String × String) :=
  g.subsystems.flatMap fun a => a.dependencies.filterMap fun dep => dependencyEdge g a dep

-- -- `src/core.rs`: versioned cache --

/-- Embedding of `Updatable<T>`: version-stamped storage with a last-check clock value and
an acknowledgement flag.  `Instant` is modelled as a `Nat` clock reading. -/
structure Updatable (T : Type) where
  version : Nat
  last_check : Nat
  storage : T
  has_been_acknowledged : Bool
deriving DecidableEq, Repr

/-- Embedding of `Updatable::from`: first version, automatically acknowledged
(`from` is a Lean keyword, hence the name `fromStorage`). -/
def Updatable.fromStorage {T : Type} (storage : T) (now : Nat) : Updatable T :=
  { version := 0, last_check := now, storage := storage, has_been_acknowledged := true }

/-- Embedding of `Updatable::update`: if the new value differs from the stored one
(structural `Eq`), bump the version, clear the acknowledgement and store it;
in every case `last_check` is set to the current time. -/
def Updatable.update {T : Type} [DecidableEq T] (self : Updatable T) (new_version : T)
    (now : Nat) : Updatable T :=
  if new_version ≠ self.storage then
    { version := self.version + 1
      has_been_acknowledged := false
      storage := new_version
      last_check := now }
  else
    { self with last_check := now }

/-- Embedding of `Updatable::acknowledge`. -/
def Updatable.acknowledge {T : Type} (self : Updatable T) : Updatable T :=
  { self with has_been_acknowledged := true }

/-- Fold a sequence of `update` calls (value and clock reading per call). -/
def Updatable.applyUpdates {T : Type} [DecidableEq T] (self : Updatable T)
    (upds : List (T × Nat)) : Updatable T :=
  upds.foldl (fun acc p => acc.update p.1 p.2) self

/-- Embedding of `src/config.rs`: a target repository or local folder. -/
structure Target where
  url : Option String
  branch : Option String
  folder : Option String
deriving DecidableEq, Repr

/-- Embedding of `src/config.rs`: the configuration (derives `Eq` in the source). -/
structure SiostamConfig where
  suffix : String
  targets : List Target
deriving DecidableEq, Repr

/-- Embedding of `GraphRepresentation`: the derived JSON and SVG renderings of a graph.
`Updatable<GraphRepresentation>` compares them structurally. -/
structure GraphRepresentation where
  json : String
  svg : String
deriving DecidableEq, Repr

/-- The mutable state of `Core` that `upgrade_graph` touches: the config
cache and the graph cache (each behind an `RwLock` in the source; lock
acquisition is modelled as always succeeding — poisoning is out of scope). -/
structure CoreState where
  config : Updatable SiostamConfig
  graph : Updatable GraphRepresentation
deriving DecidableEq, Repr

/-- Embedding of `Core::upgrade_graph` under the single-flight lock.  Constructing the
graph and regenerating JSON/SVG involve external I/O; their combined outcome
for the current config is passed in as `build`.  The `?` operator makes any
error return before the config is acknowledged and before the graph storage
is updated; on success the config is acknowledged and the graph cache is
updated. -/
def upgrade_graph (s : CoreState) (build : Except CustomError GraphRepresentation)
    (now : Nat) : CoreState × Option CustomError :=
  match build with
  | Except.error e => (s, some e)
  | Except.ok graph_representation =>
    ({ config := s.config.acknowledge
       graph := s.graph.update graph_representation now }, none)

-- -- `src/core.rs`: single-flight guard --

/-- The synchronisation state relevant to `check_for_graph_update`:
whether `is_graph_updating` (a `Mutex<()>`) is currently held by an in-flight
rebuild, and how many rebuilds have been started.  A rebuild holds the mutex
for its whole duration (`upgrade_graph` takes it first and releases it last),
so `is_graph_updating = true` models "a rebuild is in flight". -/
structure CoreSync where
  is_graph_updating : Bool
  rebuilds_started : Nat
deriving DecidableEq, Repr

/-- One trigger of `Core::check_for_graph_update`: if no update is required,
return at once; if `try_lock` on `is_graph_updating` fails (a rebuild is in
flight), return at once with no side effect — the cycle is skipped, not
queued; otherwise a rebuild is started. -/
def check_for_graph_update (update_required : Bool) (s : CoreSync) : CoreSync :=
  if !update_required then s
  else if s.is_graph_updating then s
  else { is_graph_updating := true, rebuilds_started := s.rebuilds_started + 1 }

/-- A sequence of triggers (each with its own `is_graph_update_required`
reading), interleaved while the state stays. -/
def triggerAll (reqs : List Bool) (s : CoreSync) : CoreSync :=
  reqs.foldl (fun acc r => check_for_graph_update r acc) s

-- -- `src/server/actors.rs`: notification fan-out --

/-- A subscriber handle (`Recipient<PleaseUpdate>`), identified by a number;
duplicates in the list are distinct subscriptions. -/
abbrev Subscriber : Type := Nat

/-- Embedding of `UpdateMasterActor`: the last graph version this actor observed and the
current subscriber list. -/
structure UpdateMasterActor where
  last_version : Nat
  subscribers : List Subscriber
deriving DecidableEq, Repr

/-- Embedding of `UpdateMasterActor::send_please_update_message`: call `do_send` on every
subscriber in order; a failed send (delivery outcome given by `ok`) is logged
and the loop continues.  Returns (delivered, logged-failures). -/
def send_please_update_message (ok : Subscriber → Bool) :
    List Subscriber → List Subscriber × List Subscriber
  | [] => ([], [])
  | s :: rest =>
    let r := send_please_update_message ok rest
    if ok s then (s :: r.1, r.2) else (r.1, s :: r.2)

/-- Embedding of `UpdateMasterActor::tick`, after `check_for_graph_update` has run:
read the core's current version; if it differs from `last_version`, record it
and push one `PleaseUpdate` to every subscriber; otherwise do nothing.
Returns the new actor state and (delivered, logged-failures). -/
def UpdateMasterActor.tick (act : UpdateMasterActor) (version : Nat)
    (ok : Subscriber → Bool) :
    UpdateMasterActor × List Subscriber × List Subscriber :=
  if version ≠ act.last_version then
    ({ act with last_version := version },
     send_please_update_message ok act.subscribers)
  else
    (act, [], [])

/-- The last occurrence of `k` in a list, positions offset by `i` — the value
the enumeration loop of `reconstruct_links` ends up binding `k` to. -/
def lastIndexFrom : List String → Nat → String → Option Nat
  | [], _, _ => none
  | id :: rest, i, k =>
    match lastIndexFrom rest (i + 1) k with
    | some j => some j
    | none => if k = id then some i else none
/-- Graph used to witness C4: two systems sharing id `dup`, two subsystems
sharing id `a`, with a parent reference and a dependency reference naming the
duplicated ids. -/
def exampleDupGraph : Graph :=
  { systems := [
      { id := "dup", name := "first", repo_name := "r", path := "p", description := none,
        parent_system := some (ReferenceByIndex.new "dup"), how_to := [] },
      { id := "dup", name := "second", repo_name := "r", path := "p", description := none,
        parent_system := none, how_to := [] }]
    subsystems := [
      { id := "a", name := "a1", repo_name := "r", path := "p", description := none,
        parent_system := some (ReferenceByIndex.new "dup"),
        dependencies := [{ subsystem := ReferenceByIndex.new "a", why := none }],
        how_to := [] },
      { id := "a", name := "a2", repo_name := "r", path := "p", description := none,
        parent_system := none, dependencies := [], how_to := [] }] }
/-- Graph used to witness C5: one subsystem whose only dependency names the
nonexistent id `ghost`. -/
def exampleGhostGraph : Graph :=
  { systems := []
    subsystems := [
      { id := "svc", name := "svc", repo_name := "r", path := "p", description := none,
        parent_system := none,
        dependencies := [{ subsystem := ReferenceByIndex.new "ghost", why := none }],
        how_to := [] }] }
/-- File A of the spec example: `System "core"` plus `Subsystem "svc-a"`
depending on `"svc-b"`. -/
def exampleFileA : SubsystemFileSource :=
  { stored_in_system := none
    system := some { id := some "core", name := none, description := none,
                     howto := none, how_to := none }
    subsystem := none
    subsystems := some [
      { id := some "svc-a", name := none, description := none,
        dependency := none
        dependencies := some [{ id := some "svc-b", why := none }]
        howto := none, how_to := none }]
    repo_name := some "repo-a"
    path := some "a.toml" }
/-- File B of the spec example: `Subsystem "svc-b"` with
`stored_in_system "core"` and no System of its own. -/
def exampleFileB : SubsystemFileSource :=
  { stored_in_system := some "core"
    system := none
    subsystem := none
    subsystems := some [
      { id := some "svc-b", name := none, description := none,
        dependency := none, dependencies := none, howto := none, how_to := none }]
    repo_name := some "repo-b"
    path := some "b.toml" }
/-- The graph the spec expects for the two-file example: one System `core`,
two Subsystems whose parents resolve to `core`s index 0, and `svc-a`s
dependency resolved to `svc-b`s index 1. -/
def exampleResolvedGraph : Graph :=
  { systems := [
      { id := "core", name := "core", repo_name := "repo-a", path := "a.toml",
        description := none, parent_system := none, how_to := [] }]
    subsystems := [
      { id := "svc-a", name := "svc-a", repo_name := "repo-a", path := "a.toml",
        description := none,
        parent_system := some { id := "core", index := some 0 }
        dependencies := [{ subsystem := { id := "svc-b", index := some 1 }, why := none }]
        how_to := [] },
      { id := "svc-b", name := "svc-b", repo_name := "repo-b", path := "b.toml",
        description := none,
        parent_system := some { id := "core", index := some 0 }
        dependencies := [], how_to := [] }] }
/-- The `svc-a` subsystem as extracted from file A, before link resolution. -/
def exampleSvcAUnresolved : Subsystem :=
  { id := "svc-a", name := "svc-a", repo_name := "repo-a", path := "a.toml"
    description := none
    parent_system := some (ReferenceByIndex.new "core")
    dependencies := [{ subsystem := ReferenceByIndex.new "svc-b", why := none }]
    how_to := [] }

-- quick sanity examples (concrete evaluation)
example : (ReferenceByIndex.new "a").find_index_in (IndexMap.empty.insert "a" 3) =
    { id := "a", index := some 3 } := rfl
example : indexById ["x", "y", "x"] "x" = some 2 := rfl
example : indexById ["x", "y", "x"] "z" = none := rfl

-- ===================== Helper lemmas =====================

/-- A sequence of `update` calls never decreases the version, and strictly
increases it whenever the stored content ends up different. -/
theorem Updatable.applyUpdates_version_mono {T : Type} [DecidableEq T]
    (u : Updatable T) (upds : List (T × Nat)) :
    u.version ≤ (u.applyUpdates upds).version ∧
      ((u.applyUpdates upds).storage ≠ u.storage →
        u.version < (u.applyUpdates upds).version) := by
  induction upds generalizing u with
  | nil =>
    constructor
    · exact Nat.le_refl _
    · intro h
      exact absurd rfl h
  | cons p rest ih =>
    have hstep : u.applyUpdates (p :: rest) = (u.update p.1 p.2).applyUpdates rest := rfl
    rw [hstep]
    have h := ih (u.update p.1 p.2)
    by_cases hne : p.1 = u.storage
    · have hv : (u.update p.1 p.2).version = u.version := by
        simp [Updatable.update, hne]
      have hs : (u.update p.1 p.2).storage = u.storage := by
        simp [Updatable.update, hne]
      rw [hv, hs] at h
      exact h
    · have hv : (u.update p.1 p.2).version = u.version + 1 := by
        simp [Updatable.update, hne]
      rw [hv] at h
      exact ⟨Nat.le_trans (Nat.le_succ _) h.1,
        fun _ => Nat.lt_of_lt_of_le (Nat.lt_succ_self _) h.1⟩

/-- A trigger that arrives while the update mutex is held changes nothing. -/
theorem check_for_graph_update_busy (r : Bool) (s : CoreSync)
    (h : s.is_graph_updating = true) : check_for_graph_update r s = s := by
  cases r <;> simp [check_for_graph_update, h]

/-- The fan-out loop attempts delivery to every subscriber: the delivered and
logged lists are exactly the successful and failed entries, in order. -/
theorem send_please_update_message_eq (ok : Subscriber → Bool) (l : List Subscriber) :
    send_please_update_message ok l =
      (l.filter ok, l.filter fun s => !(ok s)) := by
  induction l with
  | nil => rfl
  | cons s rest ih =>
    by_cases hs : ok s
    · simp [send_please_update_message, ih, List.filter_cons, hs]
    · simp [send_please_update_message, ih, List.filter_cons, hs]

/-- If any element of the list is an error, collecting returns an error. -/
theorem collectResults_error {E A : Type} (files : List (Except E A)) (e : E)
    (h : Except.error e ∈ files) :
    ∃ e2, collectResults files = Except.error e2 := by
  induction files with
  | nil => cases h
  | cons f rest ih =>
    cases f with
    | error e1 => exact ⟨e1, rfl⟩
    | ok a =>
      have hmem : Except.error e ∈ rest := by
        rcases List.mem_cons.mp h with h1 | h2
        · simp at h1
        · exact h2
      obtain ⟨e2, he2⟩ := ih hmem
      exact ⟨e2, by simp [collectResults, he2]⟩


/-- The insertion loop is equivalent to looking up the last occurrence. -/
theorem buildIndexMap_eq_lastIndexFrom (l : List String) (i : Nat) (m : IndexMap)
    (k : String) :
    buildIndexMap l i m k =
      match lastIndexFrom l i k with
      | some j => some j
      | none => m k := by
  induction l generalizing i m with
  | nil => rfl
  | cons a rest ih =>
    have h := ih (i + 1) (m.insert a i)
    simp only [buildIndexMap, lastIndexFrom, h]
    cases hrest : lastIndexFrom rest (i + 1) k with
    | some j => rfl
    | none =>
      simp only [IndexMap.insert]
      by_cases hk : k = a <;> simp [hk]

/-- A key that occurs nowhere has no last occurrence. -/
theorem lastIndexFrom_eq_none (l : List String) (i : Nat) (k : String)
    (h : ∀ n : Nat, l[n]? ≠ some k) : lastIndexFrom l i k = none := by
  induction l generalizing i with
  | nil => rfl
  | cons a rest ih =>
    have hrest : ∀ n : Nat, rest[n]? ≠ some k := fun n hn => h (n + 1) (by simpa using hn)
    have hka : k ≠ a := fun hk => h 0 (by simp [hk])
    simp [lastIndexFrom, ih (i + 1) hrest, hka]

/-- If `j` is an occurrence of `k` and no later occurrence exists, the last
occurrence is `i + j`. -/
theorem lastIndexFrom_eq_last (l : List String) (i : Nat) (k : String) (j : Nat)
    (hj : l[j]? = some k) (hlast : ∀ n : Nat, l[n]? = some k → n ≤ j) :
    lastIndexFrom l i k = some (i + j) := by
  induction l generalizing i j with
  | nil => simp at hj
  | cons a rest ih =>
    cases j with
    | zero =>
      have ha : a = k := by simpa using hj
      have hrest : ∀ n : Nat, rest[n]? ≠ some k := by
        intro n hn
        have := hlast (n + 1) (by simpa using hn)
        omega
      simp [lastIndexFrom, lastIndexFrom_eq_none rest (i + 1) k hrest, ha]
    | succ j =>
      have hj2 : rest[j]? = some k := by simpa using hj
      have hlast2 : ∀ n : Nat, rest[n]? = some k → n ≤ j := by
        intro n hn
        have := hlast (n + 1) (by simpa using hn)
        omega
      have := ih (i + 1) j hj2 hlast2
      simp only [lastIndexFrom, this]
      congr 1
      omega

/-- Lemma: `indexById` maps a key to the position of its last occurrence. -/
theorem indexById_eq_last (l : List String) (k : String) (j : Nat)
    (hj : l[j]? = some k) (hlast : ∀ n : Nat, l[n]? = some k → n ≤ j) :
    indexById l k = some j := by
  have h := buildIndexMap_eq_lastIndexFrom l 0 IndexMap.empty k
  rw [indexById, h, lastIndexFrom_eq_last l 0 k j hj hlast]
  simp

/-- Lemma: `indexById` maps an absent key to `none`. -/
theorem indexById_eq_none (l : List String) (k : String) (h : k ∉ l) :
    indexById l k = none := by
  have hn : ∀ n : Nat, l[n]? ≠ some k := by
    intro n hn
    exact h (List.getElem?_mem hn)
  have h2 := buildIndexMap_eq_lastIndexFrom l 0 IndexMap.empty k
  rw [indexById, h2, lastIndexFrom_eq_none l 0 k hn]
  rfl

-- ===================== Claim theorems =====================

/-- C1: `Updatable::update` bumps the version by one exactly when the new
content differs structurally from the stored content; when equal, version and
storage are unchanged; `last_check` is always set to the current time.  Over
any sequence of updates the version never decreases, and it strictly
increases whenever the content ends up changed (so versions of changed
content never repeat an older one, and rebuilding from identical content
never advances the version). -/
theorem c1_updatable_update_spec {T : Type} [DecidableEq T]
    (u : Updatable T) (v : T) (now : Nat) (upds : List (T × Nat)) :
    ((u.update v now).version = u.version + 1 ↔ v ≠ u.storage)
    ∧ (v = u.storage →
        (u.update v now).storage = u.storage ∧ (u.update v now).version = u.version)
    ∧ (u.update v now).last_check = now
    ∧ u.version ≤ (u.applyUpdates upds).version
    ∧ ((u.applyUpdates upds).storage ≠ u.storage →
        u.version < (u.applyUpdates upds).version) := by
  have hmono := Updatable.applyUpdates_version_mono u upds
  by_cases hne : v = u.storage
  · refine ⟨?_, ?_, ?_, hmono.1, hmono.2⟩
    · constructor
      · intro h
        simp [Updatable.update, hne] at h
      · intro h
        exact absurd hne h
    · intro _
      simp [Updatable.update, hne]
    · simp [Updatable.update, hne]
  · refine ⟨?_, ?_, ?_, hmono.1, hmono.2⟩
    · constructor
      · intro _
        exact hne
      · intro _
        simp [Updatable.update, hne]
    · intro h
      exact absurd h hne
    · simp [Updatable.update, hne]

/-- C1 witness: a no-op update keeps version 0; a changing update moves the
version to 1; `last_check` follows the clock; a changing sequence strictly
increases the version. -/
theorem c1_updatable_update_spec_witness :
    ((Updatable.fromStorage (5 : Nat) 0).update 7 1).version = 0 + 1
    ∧ ((Updatable.fromStorage (5 : Nat) 0).update 5 1).storage = 5
    ∧ (Updatable.fromStorage (5 : Nat) 0).version <
        ((Updatable.fromStorage (5 : Nat) 0).applyUpdates [(7, 1)]).version := by
  have h1 := c1_updatable_update_spec (Updatable.fromStorage (5 : Nat) 0) 7 1 [(7, 1)]
  have h2 := c1_updatable_update_spec (Updatable.fromStorage (5 : Nat) 0) 5 1 []
  exact ⟨h1.1.mpr (by decide), (h2.2.1 (by decide)).1, h1.2.2.2.2 (by decide)⟩

/-- C7: while a rebuild is in flight (the `is_graph_updating` mutex is held
for the whole rebuild), any number of further triggers of
`check_for_graph_update` leave the state untouched: no additional rebuild
starts (the one in flight stays the only one) and each trigger returns
immediately with no side effects — skipped, not queued. -/
theorem c7_single_flight (s : CoreSync) (reqs : List Bool)
    (h : s.is_graph_updating = true) :
    triggerAll reqs s = s := by
  induction reqs with
  | nil => rfl
  | cons r rest ih =>
    have hstep : triggerAll (r :: rest) s = triggerAll rest (check_for_graph_update r s) := rfl
    rw [hstep, check_for_graph_update_busy r s h, ih]

/-- C7 witness: three triggers during an in-flight rebuild change nothing. -/
theorem c7_single_flight_witness :
    triggerAll [true, true, false]
        { is_graph_updating := true, rebuilds_started := 1 } =
      { is_graph_updating := true, rebuilds_started := 1 } :=
  c7_single_flight { is_graph_updating := true, rebuilds_started := 1 }
    [true, true, false] rfl

/-- C8: when a rebuild cycle fails (graph construction or derived-export
generation returns an error), `upgrade_graph` leaves the whole core state —
stored snapshot, version number, config acknowledgement flag — unchanged and
surfaces the error (which the caller logs; the next tick may retry since
nothing was acknowledged).  On success, readers observe either the previous
snapshot at the same version or the new good one at exactly version + 1 —
never a partial one. -/
theorem c8_failed_rebuild_frame (s : CoreState) (e : CustomError)
    (gr : GraphRepresentation) (now : Nat) :
    upgrade_graph s (Except.error e) now = (s, some e)
    ∧ ((upgrade_graph s (Except.ok gr) now).1.graph.version = s.graph.version
          ∧ (upgrade_graph s (Except.ok gr) now).1.graph.storage = s.graph.storage
        ∨ (upgrade_graph s (Except.ok gr) now).1.graph.version = s.graph.version + 1
          ∧ (upgrade_graph s (Except.ok gr) now).1.graph.storage = gr) := by
  constructor
  · rfl
  · by_cases hne : gr = s.graph.storage
    · left
      constructor <;> simp [upgrade_graph, Updatable.update, hne]
    · right
      constructor <;> simp [upgrade_graph, Updatable.update, hne]

/-- C9: on a tick, if the core's version differs from the last observed one,
the actor records it and attempts exactly one delivery to every entry of the
subscriber list (duplicates each get their own event); deliveries that fail
are logged and do not prevent the remaining deliveries; if the version is
unchanged nothing is sent and the actor state is unchanged. -/
theorem c9_tick_fanout (act : UpdateMasterActor) (version : Nat)
    (ok : Subscriber → Bool) :
    (version ≠ act.last_version →
        (act.tick version ok).1.last_version = version
        ∧ (act.tick version ok).1.subscribers = act.subscribers
        ∧ (act.tick version ok).2.1 = act.subscribers.filter ok
        ∧ (act.tick version ok).2.2 = act.subscribers.filter (fun s => !(ok s))
        ∧ ((∀ s, ok s = true) → (act.tick version ok).2.1 = act.subscribers))
    ∧ (version = act.last_version → act.tick version ok = (act, [], [])) := by
  constructor
  · intro hne
    have hsend := send_please_update_message_eq ok act.subscribers
    refine ⟨?_, ?_, ?_, ?_, ?_⟩
    · simp [UpdateMasterActor.tick, hne]
    · simp [UpdateMasterActor.tick, hne]
    · simp [UpdateMasterActor.tick, hne, hsend]
    · simp [UpdateMasterActor.tick, hne, hsend]
    · intro hall
      simp [UpdateMasterActor.tick, hne, hsend, List.filter_eq_self.mpr fun s _ => hall s]
  · intro heq
    simp [UpdateMasterActor.tick, heq]

/-- C9 witness: with subscribers `[1, 1, 2]` (a duplicate subscription) and
delivery failing only for subscriber 2, a version change delivers to both
copies of 1 and logs the failure for 2; an unchanged version sends nothing. -/
theorem c9_tick_fanout_witness :
    (UpdateMasterActor.tick { last_version := 0, subscribers := [1, 1, 2] } 1
        (fun s => decide (s ≠ 2))).2.1 = [1, 1]
    ∧ (UpdateMasterActor.tick { last_version := 0, subscribers := [1, 1, 2] } 1
        (fun s => decide (s ≠ 2))).2.2 = [2]
    ∧ UpdateMasterActor.tick { last_version := 0, subscribers := [1, 1, 2] } 0
        (fun s => decide (s ≠ 2)) =
      ({ last_version := 0, subscribers := [1, 1, 2] }, [], []) := by
  have h1 := (c9_tick_fanout { last_version := 0, subscribers := [1, 1, 2] } 1
    (fun s => decide (s ≠ 2))).1 (by decide)
  have h2 := (c9_tick_fanout { last_version := 0, subscribers := [1, 1, 2] } 0
    (fun s => decide (s ≠ 2))).2 rfl
  exact ⟨h1.2.2.1.trans (by decide), h1.2.2.2.1.trans (by decide), h2⟩

/-- C10: `find_index_in` writes only the `index` field: the textual `id` is
exactly the id the reference was created with, before and after resolution,
and resolving again with the same identifier map gives the same result (the
resolved index is precisely the map's binding for the id). -/
theorem c10_find_index_in_frame (r : ReferenceByIndex) (indexes : IndexMap)
    (s : String) :
    (r.find_index_in indexes).id = r.id
    ∧ (r.find_index_in indexes).index = indexes r.id
    ∧ ((ReferenceByIndex.new s).find_index_in indexes).id = s
    ∧ (r.find_index_in indexes).find_index_in indexes = r.find_index_in indexes :=
  ⟨rfl, rfl, rfl, rfl⟩

/-- Evaluation of `Option.get!` on a present value. -/
theorem option_get!_some {α : Type} [Inhabited α] (a : α) :
    (some a).get! = a := rfl

/-- C2: identity fallback.  For a System record with only `name`, the
extracted entity has that name as both `id` and `name`; with only `id`, that
id is both; with neither, the record is dropped (`extract_system` is `none`).
The same holds for each Subsystem record (`extractOneSubsystem` is the loop
body of `extract_subsystems`, whose `none` results are skipped).  A file all
of whose records are invalid contributes nothing to the built graph. -/
theorem c2_identity_fallback :
    (∀ (f : SubsystemFileSource) (sys : SystemSource) (n : String),
        f.system = some sys → sys.id = none → sys.name = some n →
        ∃ s, f.extract_system = some s ∧ s.id = n ∧ s.name = n)
    ∧ (∀ (f : SubsystemFileSource) (sys : SystemSource) (i : String),
        f.system = some sys → sys.name = none → sys.id = some i →
        ∃ s, f.extract_system = some s ∧ s.id = i ∧ s.name = i)
    ∧ (∀ (f : SubsystemFileSource) (sys : SystemSource),
        f.system = some sys → sys.id = none → sys.name = none →
        f.extract_system = none)
    ∧ (∀ (f : SubsystemFileSource) (p : Option String) (sub : SubsystemSource)
          (n : String),
        sub.id = none → sub.name = some n →
        ∃ t, extractOneSubsystem f p sub = some t ∧ t.id = n ∧ t.name = n)
    ∧ (∀ (f : SubsystemFileSource) (p : Option String) (sub : SubsystemSource)
          (i : String),
        sub.name = none → sub.id = some i →
        ∃ t, extractOneSubsystem f p sub = some t ∧ t.id = i ∧ t.name = i)
    ∧ (∀ (f : SubsystemFileSource) (p : Option String) (sub : SubsystemSource),
        sub.id = none → sub.name = none → extractOneSubsystem f p sub = none)
    ∧ (∀ (f : SubsystemFileSource) (sys : SystemSource),
        f.system = some sys → sys.id = none → sys.name = none →
        (∀ sub ∈ iterate_over_option_vecs f.subsystems f.subsystem,
          sub.id = none ∧ sub.name = none) →
        merge_all_files [Except.ok f] = Except.ok { systems := [], subsystems := [] }) := by
  have hsysnone : ∀ (f : SubsystemFileSource) (sys : SystemSource),
      f.system = some sys → sys.id = none → sys.name = none →
      f.extract_system = none := by
    intro f sys hf hid hname
    simp [SubsystemFileSource.extract_system, hf, hid, hname]
  refine ⟨?_, ?_, hsysnone, ?_, ?_, ?_, ?_⟩
  · intro f sys n hf hid hname
    refine ⟨{ id := n, name := n, repo_name := f.repo_name.get!, path := f.path.get!,
              description := sys.description,
              parent_system := f.stored_in_system.map fun s => ReferenceByIndex.new s,
              how_to := extractHowTos sys.how_to sys.howto }, ?_, rfl, rfl⟩
    simp [SubsystemFileSource.extract_system, hf, hid, hname, optionOr, option_get!_some]
  · intro f sys i hf hname hid
    refine ⟨{ id := i, name := i, repo_name := f.repo_name.get!, path := f.path.get!,
              description := sys.description,
              parent_system := f.stored_in_system.map fun s => ReferenceByIndex.new s,
              how_to := extractHowTos sys.how_to sys.howto }, ?_, rfl, rfl⟩
    simp [SubsystemFileSource.extract_system, hf, hid, hname, optionOr, option_get!_some]
  · intro f p sub n hid hname
    refine ⟨{ id := n, name := n, repo_name := f.repo_name.get!, path := f.path.get!,
              description := sub.description,
              parent_system := p.map fun q => ReferenceByIndex.new q,
              dependencies :=
                (iterate_over_option_vecs sub.dependencies sub.dependency).filterMap
                  fun dependency =>
                    match dependency.id with
                    | some i => some { subsystem := ReferenceByIndex.new i,
                                       why := dependency.why }
                    | none => none,
              how_to := extractHowTos sub.how_to sub.howto }, ?_, rfl, rfl⟩
    simp [extractOneSubsystem, hid, hname, optionOr, option_get!_some]
  · intro f p sub i hname hid
    refine ⟨{ id := i, name := i, repo_name := f.repo_name.get!, path := f.path.get!,
              description := sub.description,
              parent_system := p.map fun q => ReferenceByIndex.new q,
              dependencies :=
                (iterate_over_option_vecs sub.dependencies sub.dependency).filterMap
                  fun dependency =>
                    match dependency.id with
                    | some i2 => some { subsystem := ReferenceByIndex.new i2,
                                        why := dependency.why }
                    | none => none,
              how_to := extractHowTos sub.how_to sub.howto }, ?_, rfl, rfl⟩
    simp [extractOneSubsystem, hid, hname, optionOr, option_get!_some]
  · intro f p sub hid hname
    simp [extractOneSubsystem, hid, hname]
  · intro f sys hf hid hname hsubs
    have h1 : f.extract_system = none := hsysnone f sys hf hid hname
    have h2 : ∀ (p : Option String), f.extract_subsystems p = [] := by
      intro p
      rw [SubsystemFileSource.extract_subsystems, List.filterMap_eq_nil_iff]
      intro sub hsub
      obtain ⟨ha, hb⟩ := hsubs sub hsub
      simp [extractOneSubsystem, ha, hb]
    simp [merge_all_files, collectResults, mergeFileStep, h1, h2]

/-- C2 witness: a System record with only a name, a Subsystem record with
only an id, a record with neither, and a file made of invalid records. -/
theorem c2_identity_fallback_witness :
    (∃ s, SubsystemFileSource.extract_system
        { stored_in_system := none
          system := some { id := none, name := some "only-name", description := none,
                           howto := none, how_to := none }
          subsystem := none, subsystems := none
          repo_name := some "r", path := some "p" } = some s
      ∧ s.id = "only-name" ∧ s.name = "only-name")
    ∧ (∃ t, extractOneSubsystem
        { stored_in_system := none, system := none, subsystem := none,
          subsystems := none, repo_name := some "r", path := some "p" } none
        { id := some "only-id", name := none, description := none,
          dependency := none, dependencies := none, howto := none, how_to := none } =
          some t
      ∧ t.id = "only-id" ∧ t.name = "only-id")
    ∧ merge_all_files [Except.ok
        { stored_in_system := none
          system := some { id := none, name := none, description := none,
                           howto := none, how_to := none }
          subsystem := none
          subsystems := some [{ id := none, name := none, description := none,
                                dependency := none, dependencies := none,
                                howto := none, how_to := none }]
          repo_name := some "r", path := some "p" }] =
        Except.ok { systems := [], subsystems := [] } := by
  have h := c2_identity_fallback
  refine ⟨h.1 _ _ "only-name" rfl rfl rfl, ?_, ?_⟩
  · exact h.2.2.2.2.1 _ none _ "only-id" rfl rfl
  · exact h.2.2.2.2.2.2 _ _ rfl rfl rfl (by decide)

/-- C3: if reading or parsing any one file fails, the whole build
(`merge_all_files` and `source_to_graph`) returns that failure and no graph —
in particular no partial graph — is produced. -/
theorem c3_failure_aborts (files : List (Except CustomError SubsystemFileSource))
    (e : CustomError) (h : Except.error e ∈ files) :
    ∃ e2, merge_all_files files = Except.error e2
      ∧ source_to_graph files = Except.error e2
      ∧ ∀ gr, source_to_graph files ≠ Except.ok gr := by
  obtain ⟨e2, he2⟩ := collectResults_error files e h
  refine ⟨e2, ?_, ?_, ?_⟩
  · simp [merge_all_files, he2]
  · simp [source_to_graph, merge_all_files, he2]
  · intro gr hg
    simp [source_to_graph, merge_all_files, he2] at hg

/-- C3 witness: one good file and one failed read — the build fails even
though the other file parsed. -/
theorem c3_failure_aborts_witness :
    ∃ e2, merge_all_files
        [Except.ok { stored_in_system := none, system := none, subsystem := none,
                     subsystems := none, repo_name := some "r", path := some "p" },
         Except.error { message := "While parsing subsystem file as TOML" }] =
        Except.error e2 := by
  obtain ⟨e2, he2, _, _⟩ := c3_failure_aborts
    [Except.ok { stored_in_system := none, system := none, subsystem := none,
                 subsystems := none, repo_name := some "r", path := some "p" },
     Except.error { message := "While parsing subsystem file as TOML" }]
    { message := "While parsing subsystem file as TOML" } (by simp)
  exact ⟨e2, he2⟩

/-- C4: when several entities share one identifier in a namespace, the id map
built by `reconstruct_links` binds the identifier to the positional index of
the last-inserted entity (`j` below is an occurrence with no later one), every
reference carrying that id resolves to that index — parent references against
the system namespace, dependency references against the subsystem namespace —
and all entities stay at their original positions (the id sequences of both
collections are unchanged by resolution). -/
theorem c4_duplicate_ids_last_wins (g : Graph) (k k2 : String) (j j2 : Nat)
    (hj : (g.systems.map fun s => s.id)[j]? = some k)
    (hlast : ∀ n : Nat, (g.systems.map fun s => s.id)[n]? = some k → n ≤ j)
    (hj2 : (g.subsystems.map fun s => s.id)[j2]? = some k2)
    (hlast2 : ∀ n : Nat, (g.subsystems.map fun s => s.id)[n]? = some k2 → n ≤ j2) :
    indexById (g.systems.map fun s => s.id) k = some j
    ∧ indexById (g.subsystems.map fun s => s.id) k2 = some j2
    ∧ ((reconstruct_links g).systems.map fun s => s.id) = (g.systems.map fun s => s.id)
    ∧ ((reconstruct_links g).subsystems.map fun s => s.id) =
        (g.subsystems.map fun s => s.id)
    ∧ (∀ (i : Nat) (s2 : System) (r : ReferenceByIndex),
        (reconstruct_links g).systems[i]? = some s2 →
        s2.parent_system = some r → r.id = k → r.index = some j)
    ∧ (∀ (i : Nat) (s2 : Subsystem) (r : ReferenceByIndex),
        (reconstruct_links g).subsystems[i]? = some s2 →
        s2.parent_system = some r → r.id = k → r.index = some j)
    ∧ (∀ (i n : Nat) (s2 : Subsystem) (d : SubsystemDependency),
        (reconstruct_links g).subsystems[i]? = some s2 →
        s2.dependencies[n]? = some d → d.subsystem.id = k2 →
        d.subsystem.index = some j2) := by
  have hmap : indexById (g.systems.map fun s => s.id) k = some j :=
    indexById_eq_last _ k j hj hlast
  have hmap2 : indexById (g.subsystems.map fun s => s.id) k2 = some j2 :=
    indexById_eq_last _ k2 j2 hj2 hlast2
  have hre1 : (reconstruct_links g).systems =
      g.systems.map (resolveSystemRefs (indexById (g.systems.map fun s => s.id))) := rfl
  have hre2 : (reconstruct_links g).subsystems =
      g.subsystems.map
        (resolveSubsystemRefs (indexById (g.systems.map fun s => s.id))
          (indexById (g.subsystems.map fun s => s.id))) := rfl
  refine ⟨hmap, hmap2, ?_, ?_, ?_, ?_, ?_⟩
  · rw [hre1, List.map_map]
    rfl
  · rw [hre2, List.map_map]
    rfl
  · intro i s2 r h1 h2 h3
    rw [hre1, List.getElem?_map] at h1
    obtain ⟨s0, _, hs0⟩ := Option.map_eq_some'.mp h1
    rw [← hs0] at h2
    obtain ⟨p, _, hp⟩ := Option.map_eq_some'.mp h2
    have hpid : p.id = k := by rw [← hp] at h3; exact h3
    rw [← hp]
    show indexById (g.systems.map fun s => s.id) p.id = some j
    rw [hpid]
    exact hmap
  · intro i s2 r h1 h2 h3
    rw [hre2, List.getElem?_map] at h1
    obtain ⟨s0, _, hs0⟩ := Option.map_eq_some'.mp h1
    rw [← hs0] at h2
    obtain ⟨p, _, hp⟩ := Option.map_eq_some'.mp h2
    have hpid : p.id = k := by rw [← hp] at h3; exact h3
    rw [← hp]
    show indexById (g.systems.map fun s => s.id) p.id = some j
    rw [hpid]
    exact hmap
  · intro i n s2 d h1 h2 h3
    rw [hre2, List.getElem?_map] at h1
    obtain ⟨s0, _, hs0⟩ := Option.map_eq_some'.mp h1
    rw [← hs0] at h2
    have h2b : (s0.dependencies.map fun dep =>
        { dep with subsystem := dep.subsystem.find_index_in (indexById (g.subsystems.map fun s => s.id)) })[n]? = some d := h2
    rw [List.getElem?_map] at h2b
    obtain ⟨d0, _, hd0⟩ := Option.map_eq_some'.mp h2b
    have hdid : d0.subsystem.id = k2 := by rw [← hd0] at h3; exact h3
    rw [← hd0]
    show indexById (g.subsystems.map fun s => s.id) d0.subsystem.id = some j2
    rw [hdid]
    exact hmap2


/-- C4 witness: with two systems and two subsystems sharing ids, the maps
bind each id to index 1 (the later entry), the earlier entries keep their
positions, and the references resolve to index 1. -/
theorem c4_duplicate_ids_last_wins_witness :
    indexById (exampleDupGraph.systems.map fun s => s.id) "dup" = some 1
    ∧ indexById (exampleDupGraph.subsystems.map fun s => s.id) "a" = some 1
    ∧ ((reconstruct_links exampleDupGraph).systems.map fun s => s.id) =
        (exampleDupGraph.systems.map fun s => s.id)
    ∧ (∃ s2 r, (reconstruct_links exampleDupGraph).systems[0]? = some s2
        ∧ s2.parent_system = some r ∧ r.index = some 1) := by
  have hlast : ∀ n : Nat,
      (exampleDupGraph.systems.map fun s => s.id)[n]? = some "dup" → n ≤ 1 := by
    intro n hn
    match n with
    | 0 => omega
    | 1 => omega
    | (m + 2) => simp [exampleDupGraph] at hn
  have hlast2 : ∀ n : Nat,
      (exampleDupGraph.subsystems.map fun s => s.id)[n]? = some "a" → n ≤ 1 := by
    intro n hn
    match n with
    | 0 => omega
    | 1 => omega
    | (m + 2) => simp [exampleDupGraph] at hn
  have h := c4_duplicate_ids_last_wins exampleDupGraph "dup" "a" 1 1 rfl hlast rfl hlast2
  refine ⟨h.1, h.2.1, h.2.2.1, ⟨_, { id := "dup", index := some 1 }, rfl, rfl, ?_⟩⟩
  exact h.2.2.2.2.1 0 _ { id := "dup", index := some 1 } rfl rfl rfl

/-- C5: a reference whose textual id matches no subsystem resolves to `none`
(no error), serializes with its original id and a `null` index, and the
edge-drawing traversal emits no edge for it. -/
theorem c5_unresolved_reference (g : Graph) (k : String) (i j : Nat)
    (a : Subsystem) (d : SubsystemDependency)
    (hk : k ∉ g.subsystems.map fun s => s.id)
    (ha : g.subsystems[i]? = some a) (hd : a.dependencies[j]? = some d)
    (hid : d.subsystem.id = k) :
    ∃ a2 d2, (reconstruct_links g).subsystems[i]? = some a2
      ∧ a2.dependencies[j]? = some d2
      ∧ d2.subsystem.index = none
      ∧ d2.subsystem.id = k
      ∧ d2.subsystem.toJson = Json.obj [("id", Json.str k), ("index", Json.null)]
      ∧ ∀ b : Subsystem, dependencyEdge (reconstruct_links g) b d2 = none := by
  have hnone : indexById (g.subsystems.map fun s => s.id) k = none :=
    indexById_eq_none _ k hk
  have hre2 : (reconstruct_links g).subsystems =
      g.subsystems.map
        (resolveSubsystemRefs (indexById (g.systems.map fun s => s.id))
          (indexById (g.subsystems.map fun s => s.id))) := rfl
  refine ⟨resolveSubsystemRefs (indexById (g.systems.map fun s => s.id))
      (indexById (g.subsystems.map fun s => s.id)) a,
    { d with subsystem :=
        d.subsystem.find_index_in (indexById (g.subsystems.map fun s => s.id)) },
    ?_, ?_, ?_, ?_, ?_, ?_⟩
  · rw [hre2, List.getElem?_map, ha]
    rfl
  · show (a.dependencies.map _)[j]? = _
    rw [List.getElem?_map, hd]
    rfl
  · show indexById (g.subsystems.map fun s => s.id) d.subsystem.id = none
    rw [hid]
    exact hnone
  · exact hid
  · show ReferenceByIndex.toJson
      { id := d.subsystem.id,
        index := indexById (g.subsystems.map fun s => s.id) d.subsystem.id } = _
    rw [hid, hnone]
    rfl
  · intro b
    show ((indexById (g.subsystems.map fun s => s.id) d.subsystem.id).bind _).map _ = none
    rw [hid, hnone]
    rfl


/-- C5 witness: the `ghost` dependency resolves to `none`, serializes as
`{id: "ghost", index: null}`, and draws no edge. -/
theorem c5_unresolved_reference_witness :
    ∃ a2 d2, (reconstruct_links exampleGhostGraph).subsystems[0]? = some a2
      ∧ a2.dependencies[0]? = some d2
      ∧ d2.subsystem.index = none
      ∧ d2.subsystem.id = "ghost"
      ∧ d2.subsystem.toJson = Json.obj [("id", Json.str "ghost"), ("index", Json.null)]
      ∧ ∀ b : Subsystem, dependencyEdge (reconstruct_links exampleGhostGraph) b d2 = none :=
  c5_unresolved_reference exampleGhostGraph "ghost" 0 0 _ _ (by decide) rfl rfl rfl

/-- Every subsystem extracted from a file carries, as its `parent_system`,
a fresh reference to the parent id the caller chose (or none). -/
theorem extract_subsystems_parent (f : SubsystemFileSource) (p : Option String)
    (t : Subsystem) (ht : t ∈ f.extract_subsystems p) :
    t.parent_system = p.map fun q => ReferenceByIndex.new q := by
  rw [SubsystemFileSource.extract_subsystems] at ht
  obtain ⟨src, _, hsrc⟩ := List.mem_filterMap.mp ht
  rw [extractOneSubsystem] at hsrc
  by_cases hcond : src.id = none ∧ src.name = none
  · simp [hcond] at hsrc
  · rw [if_neg hcond] at hsrc
    cases Option.some.inj hsrc
    rfl

/-- The merge of one successfully-read file: its extracted system, and its
subsystems extracted with the file-local parent choice. -/
theorem merge_single_file (f : SubsystemFileSource) :
    merge_all_files [Except.ok f] =
      Except.ok
        { systems := [] ++ f.extract_system.toList
          subsystems := [] ++ f.extract_subsystems
              (optionOr (f.extract_system.map fun s => s.id) f.stored_in_system) } := rfl




/-- C6: the parent reference handed to every subsystem extracted from a file
is the file's own System id when the file declares a valid System, otherwise
the file's `stored_in_system` value (or none); and on the two-file example
(file A: System `core` plus `svc-a` depending on `svc-b`; file B: `svc-b`
stored in `core`) the built graph has one System `core`, both subsystems'
parents resolved to `core`s index 0 and `svc-a`s dependency resolved to
`svc-b`s index 1. -/
theorem c6_parent_from_system_or_stored (f0 : SubsystemFileSource) :
    (∀ (p : Option String) (t : Subsystem),
        t ∈ f0.extract_subsystems p →
        t.parent_system = p.map fun q => ReferenceByIndex.new q)
    ∧ (∀ (s : System) (gr : Graph),
        f0.extract_system = some s →
        merge_all_files [Except.ok f0] = Except.ok gr →
        ∀ t ∈ gr.subsystems, t.parent_system = some (ReferenceByIndex.new s.id))
    ∧ (∀ gr : Graph,
        f0.extract_system = none →
        merge_all_files [Except.ok f0] = Except.ok gr →
        ∀ t ∈ gr.subsystems,
          t.parent_system = f0.stored_in_system.map fun q => ReferenceByIndex.new q)
    ∧ source_to_graph [Except.ok exampleFileA, Except.ok exampleFileB] =
        Except.ok exampleResolvedGraph := by
  refine ⟨fun p t ht => extract_subsystems_parent f0 p t ht, ?_, ?_, ?_⟩
  · intro s gr hs hm t ht
    rw [merge_single_file f0] at hm
    cases Except.ok.inj hm
    rw [List.nil_append] at ht
    have hp : optionOr (f0.extract_system.map fun s => s.id) f0.stored_in_system =
        some s.id := by
      rw [hs]
      rfl
    rw [hp] at ht
    exact extract_subsystems_parent f0 (some s.id) t ht
  · intro gr hs hm t ht
    rw [merge_single_file f0] at hm
    cases Except.ok.inj hm
    rw [List.nil_append] at ht
    have hp : optionOr (f0.extract_system.map fun s => s.id) f0.stored_in_system =
        f0.stored_in_system := by
      rw [hs]
      rfl
    rw [hp] at ht
    exact extract_subsystems_parent f0 f0.stored_in_system t ht
  · rfl


/-- C6 witness: the extracted `svc-a` carries a parent reference to `core`;
merging file A (valid System) and file B (`stored_in_system`) each give all
their subsystems a `core` parent; the two-file build resolves as expected. -/
theorem c6_parent_from_system_or_stored_witness :
    (∃ t, t ∈ exampleFileA.extract_subsystems (some "core")
      ∧ t.parent_system = some (ReferenceByIndex.new "core"))
    ∧ (∃ gr, merge_all_files [Except.ok exampleFileA] = Except.ok gr
      ∧ ∀ t ∈ gr.subsystems, t.parent_system = some (ReferenceByIndex.new "core"))
    ∧ (∃ gr, merge_all_files [Except.ok exampleFileB] = Except.ok gr
      ∧ ∀ t ∈ gr.subsystems, t.parent_system = some (ReferenceByIndex.new "core"))
    ∧ source_to_graph [Except.ok exampleFileA, Except.ok exampleFileB] =
        Except.ok exampleResolvedGraph := by
  refine ⟨?_, ?_, ?_, (c6_parent_from_system_or_stored exampleFileA).2.2.2⟩
  · refine ⟨exampleSvcAUnresolved, by decide, ?_⟩
    exact (c6_parent_from_system_or_stored exampleFileA).1 (some "core")
      exampleSvcAUnresolved (by decide)
  · exact ⟨_, rfl, fun t ht =>
      (c6_parent_from_system_or_stored exampleFileA).2.1 _ _ rfl rfl t ht⟩
  · exact ⟨_, rfl, fun t ht =>
      (c6_parent_from_system_or_stored exampleFileB).2.2.1 _ rfl rfl t ht⟩
